import Mathlib

/-!
Verification of the Guardian OS device-identity and claim subsystem
(`guardian_claim.py`, `guardian_auth.py`): a shallow embedding of the
fingerprint derivation, the claim flow and the authentication flow,
together with theorems about the persisted artifacts they produce.
-/

/-! ### SHA-256 (model of `hashlib.sha256(...).hexdigest()`) -/

def M32 : Nat := 4294967296

def rotr (n x : Nat) : Nat := ((x >>> n) ||| (x <<< (32 - n))) % M32

def bigSigma0 (x : Nat) : Nat := (rotr 2 x) ^^^ (rotr 13 x) ^^^ (rotr 22 x)

def bigSigma1 (x : Nat) : Nat := (rotr 6 x) ^^^ (rotr 11 x) ^^^ (rotr 25 x)

def smallSigma0 (x : Nat) : Nat := (rotr 7 x) ^^^ (rotr 18 x) ^^^ (x >>> 3)

def smallSigma1 (x : Nat) : Nat := (rotr 17 x) ^^^ (rotr 19 x) ^^^ (x >>> 10)

def chFn (x y z : Nat) : Nat := (x &&& y) ^^^ ((x ^^^ 4294967295) &&& z)

def majFn (x y z : Nat) : Nat := (x &&& y) ^^^ (x &&& z) ^^^ (y &&& z)

structure Hash8 where
  a : Nat
  b : Nat
  c : Nat
  d : Nat
  e : Nat
  f : Nat
  g : Nat
  h : Nat
  deriving DecidableEq

def initHash : Hash8 :=
  ⟨1779033703, 3144134277, 1013904242, 2773480762,
   1359893119, 2600822924, 528734635, 1541459225⟩

def K32 : List Nat :=
  [1116352408, 1899447441, 3049323471, 3921009573, 961987163,
   1508970993, 2453635748, 2870763221, 3624381080, 310598401,
   607225278, 1426881987, 1925078388, 2162078206, 2614888103,
   3248222580, 3835390401, 4022224774, 264347078, 604807628,
   770255983, 1249150122, 1555081692, 1996064986, 2554220882,
   2821834349, 2952996808, 3210313671, 3336571891, 3584528711,
   113926993, 338241895, 666307205, 773529912, 1294757372,
   1396182291, 1695183700, 1986661051, 2177026350, 2456956037,
   2730485921, 2820302411, 3259730800, 3345764771, 3516065817,
   3600352804, 4094571909, 275423344, 430227734, 506948616,
   659060556, 883997877, 958139571, 1322822218, 1537002063,
   1747873779, 1955562222, 2024104815, 2227730452, 2361852424,
   2428436474, 2756734187, 3204031479, 3329325298]

def wordsOf : List Nat → List Nat
  | b0 :: b1 :: b2 :: b3 :: rest => (((b0 * 256 + b1) * 256 + b2) * 256 + b3) :: wordsOf rest
  | _ => []

def buildW : Nat → List Nat → List Nat
  | 0, w => w
  | n + 1, w =>
      let i := w.length
      let nw := (w.getD (i - 16) 0 + smallSigma0 (w.getD (i - 15) 0) +
                 w.getD (i - 7) 0 + smallSigma1 (w.getD (i - 2) 0)) % M32
      buildW n (w ++ [nw])

def shaStep (st : Hash8) (k : Nat) (w : Nat) : Hash8 :=
  let t1 := (st.h + bigSigma1 st.e + chFn st.e st.f st.g + k + w) % M32
  let t2 := (bigSigma0 st.a + majFn st.a st.b st.c) % M32
  { a := (t1 + t2) % M32, b := st.a, c := st.b, d := st.c,
    e := (st.d + t1) % M32, f := st.e, g := st.f, h := st.g }

def processBlock (st : Hash8) (block : List Nat) : Hash8 :=
  let ws := buildW 48 (wordsOf block)
  let fin := (K32.zip ws).foldl (fun s kw => shaStep s kw.1 kw.2) st
  { a := (st.a + fin.a) % M32, b := (st.b + fin.b) % M32,
    c := (st.c + fin.c) % M32, d := (st.d + fin.d) % M32,
    e := (st.e + fin.e) % M32, f := (st.f + fin.f) % M32,
    g := (st.g + fin.g) % M32, h := (st.h + fin.h) % M32 }

def padMessage (msg : List Nat) : List Nat :=
  let len := msg.length
  let zeros := (119 - len % 64) % 64
  let bitLen := len * 8
  msg ++ [128] ++ List.replicate zeros 0 ++
    [(bitLen >>> 56) % 256, (bitLen >>> 48) % 256, (bitLen >>> 40) % 256, (bitLen >>> 32) % 256,
     (bitLen >>> 24) % 256, (bitLen >>> 16) % 256, (bitLen >>> 8) % 256, bitLen % 256]

def toBlocksAux : Nat → List Nat → List (List Nat)
  | 0, _ => []
  | _, [] => []
  | n + 1, l => l.take 64 :: toBlocksAux n (l.drop 64)

def toBlocks (l : List Nat) : List (List Nat) := toBlocksAux l.length l

def wordBytes (x : Nat) : List Nat :=
  [(x >>> 24) % 256, (x >>> 16) % 256, (x >>> 8) % 256, x % 256]

def digestBytes (st : Hash8) : List Nat :=
  wordBytes st.a ++ wordBytes st.b ++ wordBytes st.c ++ wordBytes st.d ++
  wordBytes st.e ++ wordBytes st.f ++ wordBytes st.g ++ wordBytes st.h

def sha256Bytes (msg : List Nat) : List Nat :=
  digestBytes ((toBlocks (padMessage msg)).foldl processBlock initHash)

def hexChar (n : Nat) : Char :=
  if n < 10 then Char.ofNat (48 + n) else Char.ofNat (87 + n)

def byteToHex (b : Nat) : String :=
  String.mk [hexChar (b / 16 % 16), hexChar (b % 16)]

def hexDigest : List Nat → String
  | [] => ""
  | b :: rest => byteToHex b ++ hexDigest rest

/-- Models `s.encode()` for the ASCII strings that occur in this flow. -/
def strBytes (s : String) : List Nat := s.data.map Char.toNat

def sha256hexOfString (s : String) : String := hexDigest (sha256Bytes (strBytes s))

/-- Sanity check against the published SHA-256 test vector for the empty message. -/
example : sha256hexOfString "" =
    "e3b0c44298fc1c149afbf4c8996fb92427ae41e4649b934ca495991b7852b855" := by decide

/-! ### Data model shared by the two Calamares modules -/

/-- Hardware signals read by `get_device_fingerprint`: the `model name` line of
`/proc/cpuinfo` (if readable), the `link/ether` addresses from `ip link show`
(if the command works), and the contents of `/etc/machine-id` (if readable). -/
structure HwSignals where
  cpuModel : Option String
  macs : List String
  machineId : Option String
  deriving DecidableEq

/-- The pending-activation record serialized to `pending_activation.json`.
`email` is `Option` because `globalstorage.value` may yield `None`, which
`json.dump` serializes as `null`. -/
structure PendingRecord where
  email : Option String
  fingerprint : String
  timestamp : String
  deriving DecidableEq

/-- The persisted artifacts under `<root>/etc/guardian`.  `supabaseEnvJwt` is
the device credential stored in `supabase.env` (the rest of that file is the
fixed template `supabase_env_content`). -/
structure FS where
  supabaseEnvJwt : Option String
  deviceCodeFile : Option String
  pendingFile : Option PendingRecord
  deriving DecidableEq

/-- Filesystem / network operations performed by a run, in order.  `rename` is
in the vocabulary so that the write discipline (in-place truncation vs.
write-temp-then-rename) is expressible. -/
inductive FsOp where
  | makedirs (path : String) (mode : Nat)
  | openTrunc (path : String)
  | writeStr (path : String) (content : String)
  | writePendingJson (path : String) (record : PendingRecord)
  | chmod (path : String) (mode : Nat)
  | rename (src : String) (dst : String)
  | httpPost (url : String)
  deriving DecidableEq

def isRenameOp : FsOp → Bool
  | .rename _ _ => true
  | _ => false

def isHttpPost : FsOp → Bool
  | .httpPost _ => true
  | _ => false

/-- `os.path.join` for the paths occurring here: an absolute second argument
wins, otherwise a separator is inserted unless the first argument already ends
with one. -/
def osPathJoin (a b : String) : String :=
  if b.data.head? = some '/' then b
  else if a.data.getLast? = some '/' then a ++ b else a ++ "/" ++ b

/-- Python truthiness of a `globalstorage.value` result (`None` or `""` are falsy). -/
def truthyOpt (o : Option String) : Bool :=
  match o with
  | none => false
  | some s => !(s == "")

def API_BASE : String := "https://xzxjwuzwltoapifcyzww.supabase.co/functions/v1"

def CLAIM_URL : String := API_BASE ++ "/bind-device"

def AUTH_LOGIN_URL : String := API_BASE ++ "/auth-login"

def AUTH_REGISTER_URL : String := API_BASE ++ "/auth-register"

namespace GuardianClaim

/-- The ordered component list of `get_device_fingerprint`: optional CPU model,
then the MAC list, then the machine id — with a freshly drawn random id
(`uuid.uuid4()`, passed here as `rand_id`) substituted when `/etc/machine-id`
is unavailable. -/
def components (sig : HwSignals) (rand_id : String) : List String :=
  (match sig.cpuModel with
   | some c => [c]
   | none => []) ++ sig.macs ++ [sig.machineId.getD rand_id]

/-- `get_device_fingerprint` from `guardian_claim.py`. -/
def get_device_fingerprint (sig : HwSignals) (rand_id : String) : String :=
  "sha256:" ++ sha256hexOfString (String.intercalate "|" (components sig rand_id))

/-- Outcome of the `requests.post` to the bind-device endpoint: either a
response with a status code and the two optional JSON fields, or a
`requests.exceptions.RequestException`. -/
inductive ClaimHttp where
  | response (status : Nat) (device_jwt : Option String) (device_code : Option String) (text : String)
  | netError (msg : String)
  deriving DecidableEq

/-- Inputs of `guardian_claim.run`: the global-storage values it reads, the
`/tmp/guardian_parent_token` contents (if the file exists and is readable),
the `GUARDIAN_TEST_EMAIL` environment variable, the hardware signals, the
random fallback id, the outcome of the single HTTP POST, and the
`date -u` timestamp. -/
structure ClaimInputs where
  rootMountPoint : Option String
  offline_mode : Bool
  gs_parent_token : Option String
  tmp_parent_token : Option String
  gs_parent_email : Option String
  env_test_email : Option String
  gs_pending_email : Option String
  signals : HwSignals
  rand_id : String
  http : ClaimHttp
  timestamp : String


/-- The fixed contents of `supabase.env` as written by `write_supabase_env`,
with the device credential interpolated. -/
def supabase_env_content (device_jwt : String) : String :=
  "# Guardian OS Supabase Configuration\n" ++
  "# Generated during installation\n" ++
  "SUPABASE_URL=https://xzxjwuzwltoapifcyzww.supabase.co\n" ++
  "GUARDIAN_API_BASE=https://xzxjwuzwltoapifcyzww.supabase.co/functions/v1\n" ++
  "\n" ++
  "# API Endpoints\n" ++
  "GUARDIAN_AUTH_LOGIN_URL=$GUARDIAN_API_BASE/auth-login\n" ++
  "GUARDIAN_AUTH_REGISTER_URL=$GUARDIAN_API_BASE/auth-register\n" ++
  "GUARDIAN_CLAIM_URL=$GUARDIAN_API_BASE/bind-device\n" ++
  "GUARDIAN_HEARTBEAT_URL=$GUARDIAN_API_BASE/device-heartbeat\n" ++
  "\n" ++
  "# Device JWT (obtained during installation)\n" ++
  "GUARDIAN_DEVICE_JWT=" ++ device_jwt ++ "\n"

/-- `write_supabase_env` from `guardian_claim.py`: returns the updated
artifact state and the filesystem operations it performs (makedirs, then an
in-place `open(env_file, "w")` truncating write, then chmod 0o600). -/
def write_supabase_env (root_mount device_jwt : String) (fs : FS) : FS × List FsOp :=
  let guardian_dir := osPathJoin root_mount "etc/guardian"
  let env_file := osPathJoin guardian_dir "supabase.env"
  ({ fs with supabaseEnvJwt := some device_jwt },
   [.makedirs guardian_dir 448, .openTrunc env_file,
    .writeStr env_file (supabase_env_content device_jwt), .chmod env_file 384])

/-- Result of one invocation of `guardian_claim.run`: the artifact state, the
return value (`none` = success, `some (title, detail)` = user-visible
failure), the two global-storage inserts of the success branch, and the
ordered operation trace. -/
structure ClaimOutcome where
  fs : FS
  ret : Option (String × String)
  gs_device_jwt : Option String
  gs_device_code : Option String
  trace : List FsOp
  deriving DecidableEq

/-- The parent token used by `run`: the global-storage value if truthy,
otherwise the stripped contents of `/tmp/guardian_parent_token` (empty if the
file is missing or unreadable). -/
def effectiveToken (inp : ClaimInputs) : String :=
  if truthyOpt inp.gs_parent_token then inp.gs_parent_token.getD ""
  else match inp.tmp_parent_token with
       | some t => t.trim
       | none => ""

/-- The parent email used by `run`: the global-storage value if truthy,
otherwise `os.environ.get("GUARDIAN_TEST_EMAIL", "unknown@example.com")`. -/
def effectiveParentEmail (inp : ClaimInputs) : String :=
  if truthyOpt inp.gs_parent_email then inp.gs_parent_email.getD ""
  else inp.env_test_email.getD "unknown@example.com"

/-- `run` from `guardian_claim.py`, as a transformer of the persisted
artifact state. -/
def run (inp : ClaimInputs) (fs : FS) : ClaimOutcome :=
  let root_mount := if truthyOpt inp.rootMountPoint then inp.rootMountPoint.getD "" else "/"
  if inp.offline_mode then
    let guardian_dir := osPathJoin root_mount "etc/guardian"
    let pending_file := osPathJoin guardian_dir "pending_activation.json"
    let pd : PendingRecord :=
      { email := inp.gs_pending_email,
        fingerprint := get_device_fingerprint inp.signals inp.rand_id,
        timestamp := inp.timestamp }
    let fs1 : FS := { fs with pendingFile := some pd }
    let step2 := write_supabase_env root_mount "" fs1
    { fs := step2.1, ret := none, gs_device_jwt := none, gs_device_code := none,
      trace := [.makedirs guardian_dir 448, .openTrunc pending_file,
                .writePendingJson pending_file pd, .chmod pending_file 384] ++ step2.2 }
  else
    let parent_token := effectiveToken inp
    if parent_token = "" then
      { fs := fs, ret := some ("Device claim failed", "Authentication required"),
        gs_device_jwt := none, gs_device_code := none, trace := [] }
    else
      let parent_email := effectiveParentEmail inp
      let device_fingerprint := get_device_fingerprint inp.signals inp.rand_id
      match inp.http with
      | .response status jwtField codeField _text =>
        if status = 200 then
          let device_jwt := jwtField.getD ""
          let device_code := codeField.getD ""
          let step1 := write_supabase_env root_mount device_jwt fs
          let guardian_dir := osPathJoin root_mount "etc/guardian"
          let device_code_file := osPathJoin guardian_dir "device_code"
          { fs := { step1.1 with deviceCodeFile := some device_code },
            ret := none,
            gs_device_jwt := some device_jwt, gs_device_code := some device_code,
            trace := [.httpPost CLAIM_URL] ++ step1.2 ++
                     [.makedirs guardian_dir 448, .openTrunc device_code_file,
                      .writeStr device_code_file device_code, .chmod device_code_file 384] }
        else
          { fs := fs, ret := some ("Device claim failed", "Server returned " ++ toString status),
            gs_device_jwt := none, gs_device_code := none, trace := [.httpPost CLAIM_URL] }
      | .netError _msg =>
        let guardian_dir := osPathJoin root_mount "etc/guardian"
        let pending_file := osPathJoin guardian_dir "pending_activation.json"
        let pd : PendingRecord :=
          { email := some parent_email,
            fingerprint := device_fingerprint,
            timestamp := inp.timestamp }
        let fs1 : FS := { fs with pendingFile := some pd }
        let step2 := write_supabase_env root_mount "" fs1
        { fs := step2.1, ret := none, gs_device_jwt := none, gs_device_code := none,
          trace := [.httpPost CLAIM_URL, .makedirs guardian_dir 448, .openTrunc pending_file,
                    .writePendingJson pending_file pd, .chmod pending_file 384] ++ step2.2 }

end GuardianClaim

namespace GuardianAuth

/-- Outcome of the `requests.post` to the auth endpoint: either a response
with a status code and the optional `parent_access_token` field, or a
`requests.exceptions.RequestException`. -/
inductive AuthHttp where
  | response (status : Nat) (parent_access_token : Option String) (text : String)
  | netError (msg : String)
  deriving DecidableEq

/-- Inputs of `guardian_auth.run`: the three global-storage values and the two
`GUARDIAN_TEST_*` environment variables, plus the outcome of the HTTP POST
(consulted only if one is performed). -/
structure AuthInputs where
  gs_auth_mode : Option String
  gs_auth_email : Option String
  gs_auth_password : Option String
  env_test_email : Option String
  env_test_password : Option String
  http : AuthHttp

/-- Result of one invocation of `guardian_auth.run`: the global-storage
inserts it performs, the return value, and the operation trace. -/
structure AuthOutcome where
  offline_mode : Bool
  pending_email : Option String
  pending_auth : Bool
  parent_token : Option String
  parent_email : Option String
  ret : Option (String × String)
  trace : List FsOp
  deriving DecidableEq

/-- The email used by `run`: the UI / global-storage value if truthy,
otherwise `os.environ.get("GUARDIAN_TEST_EMAIL", "")`. -/
def effectiveEmail (inp : AuthInputs) : String :=
  if truthyOpt inp.gs_auth_email then inp.gs_auth_email.getD ""
  else inp.env_test_email.getD ""

/-- The password used by `run`: the UI / global-storage value if truthy,
otherwise `os.environ.get("GUARDIAN_TEST_PASSWORD", "")`. -/
def effectivePassword (inp : AuthInputs) : String :=
  if truthyOpt inp.gs_auth_password then inp.gs_auth_password.getD ""
  else inp.env_test_password.getD ""

/-- `run` from `guardian_auth.py`. -/
def run (inp : AuthInputs) : AuthOutcome :=
  let email := effectiveEmail inp
  let password := effectivePassword inp
  if email = "" ∨ password = "" then
    { offline_mode := true, pending_email := none, pending_auth := false,
      parent_token := none, parent_email := none, ret := none, trace := [] }
  else
    let url := if inp.gs_auth_mode = some "register" then AUTH_REGISTER_URL else AUTH_LOGIN_URL
    match inp.http with
    | .response status tokenField _text =>
      if status = 200 then
        if truthyOpt tokenField then
          let parent_token := tokenField.getD ""
          { offline_mode := false, pending_email := none, pending_auth := false,
            parent_token := some parent_token, parent_email := some email, ret := none,
            trace := [.httpPost url, .openTrunc "/tmp/guardian_parent_token",
                      .writeStr "/tmp/guardian_parent_token" parent_token,
                      .chmod "/tmp/guardian_parent_token" 384] }
        else
          { offline_mode := false, pending_email := none, pending_auth := false,
            parent_token := none, parent_email := none,
            ret := some ("Authentication failed", "Invalid response from server"),
            trace := [.httpPost url] }
      else
        { offline_mode := false, pending_email := none, pending_auth := false,
          parent_token := none, parent_email := none,
          ret := some ("Authentication failed", "Server returned " ++ toString status),
          trace := [.httpPost url] }
    | .netError _msg =>
      { offline_mode := true, pending_email := some email, pending_auth := true,
        parent_token := none, parent_email := none, ret := none,
        trace := [.httpPost url] }

end GuardianAuth

/-! ### Helper lemmas about the hex digest -/

/-- Lowercase-hex character predicate (digits `0`-`9` or letters `a`-`f`). -/
def isHexChar (c : Char) : Bool :=
  (48 ≤ c.toNat && c.toNat ≤ 57) || (97 ≤ c.toNat && c.toNat ≤ 102)

theorem hexChar_isHex (n : Nat) (hn : n < 16) : isHexChar (hexChar n) = true := by
  interval_cases n <;> decide

theorem byteToHex_chars (b : Nat) (c : Char) (hc : c ∈ (byteToHex b).data) :
    isHexChar c = true := by
  have h2 : (byteToHex b).data = [hexChar (b / 16 % 16), hexChar (b % 16)] := rfl
  rw [h2, List.mem_cons, List.mem_cons] at hc
  rcases hc with h | h | h
  · exact h ▸ hexChar_isHex _ (Nat.mod_lt _ (by norm_num))
  · exact h ▸ hexChar_isHex _ (Nat.mod_lt _ (by norm_num))
  · cases h

theorem byteToHex_length (b : Nat) : (byteToHex b).length = 2 := rfl

theorem hexDigest_chars (bs : List Nat) (c : Char) (hc : c ∈ (hexDigest bs).data) :
    isHexChar c = true := by
  induction bs with
  | nil => cases hc
  | cons b rest ih =>
      rw [hexDigest, String.data_append] at hc
      rcases List.mem_append.mp hc with h | h
      · exact byteToHex_chars b c h
      · exact ih h

theorem hexDigest_length (bs : List Nat) : (hexDigest bs).length = 2 * bs.length := by
  induction bs with
  | nil => rfl
  | cons b rest ih =>
      rw [hexDigest, String.length_append, byteToHex_length, ih]
      simp [Nat.mul_succ, Nat.add_comm]

theorem sha256Bytes_length (m : List Nat) : (sha256Bytes m).length = 32 := rfl

/-! ### Claim theorems -/

/-- Claim C9: fingerprint derivation is total over every combination of
available/unavailable signal sources and always returns the string
`"sha256:"` followed by the 64-character lowercase-hex digest of the
concatenation (joined by `"|"`) of the available signals — including the
case where no CPU model, no MAC address and no machine id is available. -/
theorem c9_fingerprint_total_form (sig : HwSignals) (rand_id : String) :
    GuardianClaim.get_device_fingerprint sig rand_id =
      "sha256:" ++ sha256hexOfString (String.intercalate "|" (GuardianClaim.components sig rand_id))
    ∧ (sha256hexOfString (String.intercalate "|" (GuardianClaim.components sig rand_id))).length = 64
    ∧ ∀ c ∈ (sha256hexOfString (String.intercalate "|" (GuardianClaim.components sig rand_id))).data,
        isHexChar c = true := by
  refine ⟨rfl, ?_, ?_⟩
  · show (hexDigest (sha256Bytes _)).length = 64
    rw [hexDigest_length, sha256Bytes_length]
  · intro c hc
    exact hexDigest_chars _ c hc

set_option maxRecDepth 100000 in
/-- Claim C2 is false as stated: when no machine identifier exists the
randomly generated substitute is *not* persisted — `get_device_fingerprint`
draws a fresh `uuid.uuid4()` on every call, so with identical hardware
signals (no CPU model, no MACs, no `/etc/machine-id`) two derivations with
different random draws yield different fingerprints. -/
theorem c2_counterexample :
    GuardianClaim.get_device_fingerprint ⟨none, [], none⟩ "f47ac10b-58cc-4372-a567-0e02b2c3d479" ≠
    GuardianClaim.get_device_fingerprint ⟨none, [], none⟩ "9b2e61ad-77aa-4d08-8f41-5c11f0a2e6b3" := by
  decide

/-- Claim C2 (amended): fingerprint derivation is deterministic whenever the
machine identifier exists — for a fixed CPU model, MAC list and machine id the
derived value is independent of the random substitute draw, so two calls on an
unchanged machine yield the identical fingerprint; without a machine
identifier the substitute is drawn fresh on each call and never persisted, so
repeat derivations may differ. -/
theorem c2_deterministic_with_machine_id (cpu : Option String) (macs : List String)
    (mid : String) (r1 r2 : String) :
    GuardianClaim.get_device_fingerprint ⟨cpu, macs, some mid⟩ r1 =
    GuardianClaim.get_device_fingerprint ⟨cpu, macs, some mid⟩ r2 := rfl

/-- Claim C1 is false as stated: `run` never consults previously persisted
state.  With a Claimed state already on disk (device credential `"abc"`,
device code `"XYZ-123"`), a later invocation in offline mode rewrites
`supabase.env` with an empty device credential, so the stored credential
after the attempt differs from the one before it. -/
theorem c1_counterexample :
    (GuardianClaim.run
      { rootMountPoint := some "/mnt", offline_mode := true,
        gs_parent_token := none, tmp_parent_token := none,
        gs_parent_email := none, env_test_email := none,
        gs_pending_email := some "parent@example.com",
        signals := ⟨some "cpu0", ["aa:bb:cc:dd:ee:ff"], some "mid0"⟩, rand_id := "r0",
        http := .netError "unreachable", timestamp := "2025-01-01T00:00:00Z" }
      { supabaseEnvJwt := some "abc", deviceCodeFile := some "XYZ-123", pendingFile := none }).fs.supabaseEnvJwt
    ≠ some "abc" := by decide

/-- Claim C1 (amended): re-invocation of the claim flow is not a guarded
no-op: the flow re-executes unconditionally, and any later attempt that takes
the offline or the network-error path overwrites the persisted device
credential with the empty string, regardless of the previously persisted
(possibly Claimed) state; only a missing-token or non-success attempt leaves
the stored credential unchanged. -/
theorem c1_reinvocation_overwrites (inp : GuardianClaim.ClaimInputs) (fs : FS)
    (hpath : inp.offline_mode = true ∨
      (inp.offline_mode = false ∧ GuardianClaim.effectiveToken inp ≠ "" ∧
       ∃ m, inp.http = .netError m)) :
    (GuardianClaim.run inp fs).fs.supabaseEnvJwt = some "" := by
  rcases hpath with hoff | ⟨hoff, htok, m, hnet⟩
  · simp [GuardianClaim.run, hoff, GuardianClaim.write_supabase_env]
  · simp [GuardianClaim.run, hoff, hnet, htok, GuardianClaim.write_supabase_env]

/-- Witness for `c1_reinvocation_overwrites` at a concrete offline re-invocation
over a previously Claimed state. -/
theorem c1_witness :
    (GuardianClaim.run
      { rootMountPoint := none, offline_mode := true,
        gs_parent_token := none, tmp_parent_token := none,
        gs_parent_email := none, env_test_email := none,
        gs_pending_email := none,
        signals := ⟨none, [], some "machine-1"⟩, rand_id := "r1",
        http := .netError "offline", timestamp := "2025-02-02T00:00:00Z" }
      { supabaseEnvJwt := some "jwt-prior", deviceCodeFile := some "CODE-1", pendingFile := none }).fs.supabaseEnvJwt
    = some "" :=
  c1_reinvocation_overwrites _ _ (Or.inl rfl)

/-- Claim C3 is false as stated: on an HTTP 200 response whose `device_jwt`
field is absent, `run` does not return `Failed("invalid response")` — it
substitutes the empty string, persists the configuration file, the device-code
file and both global-storage entries, and reports success. -/
theorem c3_counterexample :
    (GuardianClaim.run
      { rootMountPoint := none, offline_mode := false,
        gs_parent_token := some "parent-token", tmp_parent_token := none,
        gs_parent_email := some "parent@example.com", env_test_email := none,
        gs_pending_email := none,
        signals := ⟨none, [], some "mid2"⟩, rand_id := "r2",
        http := .response 200 none (some "XYZ-123") "", timestamp := "t2" }
      { supabaseEnvJwt := none, deviceCodeFile := none, pendingFile := none }).ret = none
    ∧ (GuardianClaim.run
      { rootMountPoint := none, offline_mode := false,
        gs_parent_token := some "parent-token", tmp_parent_token := none,
        gs_parent_email := some "parent@example.com", env_test_email := none,
        gs_pending_email := none,
        signals := ⟨none, [], some "mid2"⟩, rand_id := "r2",
        http := .response 200 none (some "XYZ-123") "", timestamp := "t2" }
      { supabaseEnvJwt := none, deviceCodeFile := none, pendingFile := none }).fs =
      { supabaseEnvJwt := some "", deviceCodeFile := some "XYZ-123", pendingFile := none } := by
  constructor <;> decide

/-- Claim C3 (amended): on an HTTP 200 response, absent `device_jwt` or
`device_code` fields default to the empty string; `run` persists the
configuration file and device-code file with those (possibly empty) values,
inserts both into global storage, and returns success — a half-valid claim is
persisted rather than rejected. -/
theorem c3_half_valid_persisted (inp : GuardianClaim.ClaimInputs) (fs : FS)
    (jf cf : Option String) (txt : String)
    (hoff : inp.offline_mode = false)
    (htok : GuardianClaim.effectiveToken inp ≠ "")
    (hresp : inp.http = .response 200 jf cf txt) :
    (GuardianClaim.run inp fs).ret = none
    ∧ (GuardianClaim.run inp fs).fs.supabaseEnvJwt = some (jf.getD "")
    ∧ (GuardianClaim.run inp fs).fs.deviceCodeFile = some (cf.getD "")
    ∧ (GuardianClaim.run inp fs).gs_device_jwt = some (jf.getD "")
    ∧ (GuardianClaim.run inp fs).gs_device_code = some (cf.getD "") := by
  simp [GuardianClaim.run, hoff, hresp, htok, GuardianClaim.write_supabase_env]

/-- Witness for `c3_half_valid_persisted` at a concrete 200 response missing
its `device_code` field. -/
theorem c3_witness :
    (GuardianClaim.run
      { rootMountPoint := some "/mnt", offline_mode := false,
        gs_parent_token := some "tok3", tmp_parent_token := none,
        gs_parent_email := none, env_test_email := some "env@example.com",
        gs_pending_email := none,
        signals := ⟨some "cpu3", [], some "mid3"⟩, rand_id := "r3",
        http := .response 200 (some "jwt-3") none "", timestamp := "t3" }
      { supabaseEnvJwt := none, deviceCodeFile := none, pendingFile := none }).fs.deviceCodeFile
    = some "" :=
  (c3_half_valid_persisted _ _ (some "jwt-3") none "" rfl (by decide) rfl).2.2.1

/-- Claim C4 is false as stated: with no parent token available (neither in
global storage nor in `/tmp/guardian_parent_token`), `run` surfaces the hard
user-visible failure `("Device claim failed", "Authentication required")` and
writes no pending-claim record at all — the missing-token (`Unavailable`)
case does not transition to ClaimPending. -/
theorem c4_counterexample :
    (GuardianClaim.run
      { rootMountPoint := none, offline_mode := false,
        gs_parent_token := none, tmp_parent_token := none,
        gs_parent_email := some "parent@example.com", env_test_email := none,
        gs_pending_email := none,
        signals := ⟨none, [], some "mid4"⟩, rand_id := "r4",
        http := .response 200 (some "jwt-4") (some "CODE-4") "", timestamp := "t4" }
      { supabaseEnvJwt := none, deviceCodeFile := none, pendingFile := none }).ret =
      some ("Device claim failed", "Authentication required")
    ∧ (GuardianClaim.run
      { rootMountPoint := none, offline_mode := false,
        gs_parent_token := none, tmp_parent_token := none,
        gs_parent_email := some "parent@example.com", env_test_email := none,
        gs_pending_email := none,
        signals := ⟨none, [], some "mid4"⟩, rand_id := "r4",
        http := .response 200 (some "jwt-4") (some "CODE-4") "", timestamp := "t4" }
      { supabaseEnvJwt := none, deviceCodeFile := none, pendingFile := none }).fs.pendingFile = none := by
  constructor <;> decide

/-- Claim C4 (amended): only the transport-error path transitions to
ClaimPending: on a network error `run` succeeds and persists a pending-claim
record, but a missing parent token is surfaced as the hard failure
`("Device claim failed", "Authentication required")` with no writes at all,
and a non-success backend response is surfaced as the hard failure
`("Device claim failed", "Server returned N")` with no writes — neither
failure writes a pending record. -/
theorem c4_failure_paths (inp : GuardianClaim.ClaimInputs) (fs : FS)
    (hoff : inp.offline_mode = false) :
    (GuardianClaim.effectiveToken inp = "" →
      (GuardianClaim.run inp fs).ret = some ("Device claim failed", "Authentication required")
      ∧ (GuardianClaim.run inp fs).fs = fs
      ∧ (GuardianClaim.run inp fs).trace = [])
    ∧ (∀ m, GuardianClaim.effectiveToken inp ≠ "" → inp.http = .netError m →
      (GuardianClaim.run inp fs).ret = none
      ∧ (GuardianClaim.run inp fs).fs.pendingFile =
          some { email := some (GuardianClaim.effectiveParentEmail inp),
                 fingerprint := GuardianClaim.get_device_fingerprint inp.signals inp.rand_id,
                 timestamp := inp.timestamp })
    ∧ (∀ st jf cf txt, GuardianClaim.effectiveToken inp ≠ "" →
        inp.http = .response st jf cf txt → st ≠ 200 →
      (GuardianClaim.run inp fs).ret =
        some ("Device claim failed", "Server returned " ++ toString st)
      ∧ (GuardianClaim.run inp fs).fs = fs) := by
  refine ⟨?_, ?_, ?_⟩
  · intro htok
    simp [GuardianClaim.run, hoff, htok]
  · intro m htok hnet
    simp [GuardianClaim.run, hoff, htok, hnet, GuardianClaim.write_supabase_env]
  · intro st jf cf txt htok hresp hst
    simp [GuardianClaim.run, hoff, htok, hresp, hst]

/-- Witness for `c4_failure_paths`: the missing-token branch at a concrete
input surfaces the hard failure. -/
theorem c4_witness :
    (GuardianClaim.run
      { rootMountPoint := none, offline_mode := false,
        gs_parent_token := some "", tmp_parent_token := none,
        gs_parent_email := none, env_test_email := none,
        gs_pending_email := none,
        signals := ⟨none, [], some "mid5"⟩, rand_id := "r5",
        http := .netError "down", timestamp := "t5" }
      { supabaseEnvJwt := none, deviceCodeFile := none, pendingFile := none }).ret =
      some ("Device claim failed", "Authentication required") :=
  (c4_failure_paths _ _ rfl).1 (by decide) |>.1

/-- Claim C6: on a transport-level failure of the claim request, `run`
returns success (no user-visible error, nothing raised past the handler),
persists a pending-activation record containing the parent email, the device
fingerprint and the UTC timestamp, and writes the configuration file with an
empty device credential. -/
theorem c6_transport_failure_pending (inp : GuardianClaim.ClaimInputs) (fs : FS)
    (m : String)
    (hoff : inp.offline_mode = false)
    (htok : GuardianClaim.effectiveToken inp ≠ "")
    (hnet : inp.http = .netError m) :
    (GuardianClaim.run inp fs).ret = none
    ∧ (GuardianClaim.run inp fs).fs.pendingFile =
        some { email := some (GuardianClaim.effectiveParentEmail inp),
               fingerprint := GuardianClaim.get_device_fingerprint inp.signals inp.rand_id,
               timestamp := inp.timestamp }
    ∧ (GuardianClaim.run inp fs).fs.supabaseEnvJwt = some "" := by
  simp [GuardianClaim.run, hoff, htok, hnet, GuardianClaim.write_supabase_env]

/-- Witness for `c6_transport_failure_pending` at a concrete timeout. -/
theorem c6_witness :
    (GuardianClaim.run
      { rootMountPoint := some "/mnt", offline_mode := false,
        gs_parent_token := some "tok6", tmp_parent_token := none,
        gs_parent_email := some "mum@example.com", env_test_email := none,
        gs_pending_email := none,
        signals := ⟨some "cpu6", ["11:22:33:44:55:66"], some "mid6"⟩, rand_id := "r6",
        http := .netError "timeout", timestamp := "2025-03-03T03:03:03Z" }
      { supabaseEnvJwt := none, deviceCodeFile := none, pendingFile := none }).fs.supabaseEnvJwt
    = some "" :=
  (c6_transport_failure_pending _ _ "timeout" rfl (by decide) rfl).2.2

/-- Claim C7: on any non-200 status from the claim endpoint, `run` returns
exactly the user-visible pair `("Device claim failed", "Server returned N")`,
performs no writes (the artifact state — including a previously Claimed
record — is unchanged), and inserts nothing into global storage. -/
theorem c7_non200_hard_failure (inp : GuardianClaim.ClaimInputs) (fs : FS)
    (st : Nat) (jf cf : Option String) (txt : String)
    (hoff : inp.offline_mode = false)
    (htok : GuardianClaim.effectiveToken inp ≠ "")
    (hresp : inp.http = .response st jf cf txt)
    (hst : st ≠ 200) :
    (GuardianClaim.run inp fs).ret =
      some ("Device claim failed", "Server returned " ++ toString st)
    ∧ (GuardianClaim.run inp fs).fs = fs
    ∧ (GuardianClaim.run inp fs).gs_device_jwt = none
    ∧ (GuardianClaim.run inp fs).gs_device_code = none
    ∧ (GuardianClaim.run inp fs).trace = [.httpPost CLAIM_URL] := by
  simp [GuardianClaim.run, hoff, htok, hresp, hst]

/-- Witness for `c7_non200_hard_failure`: HTTP 500 over a previously Claimed
state leaves the state untouched and yields the Scenario-D message. -/
theorem c7_witness :
    (GuardianClaim.run
      { rootMountPoint := none, offline_mode := false,
        gs_parent_token := some "tok7", tmp_parent_token := none,
        gs_parent_email := some "dad@example.com", env_test_email := none,
        gs_pending_email := none,
        signals := ⟨none, [], some "mid7"⟩, rand_id := "r7",
        http := .response 500 none none "internal error", timestamp := "t7" }
      { supabaseEnvJwt := some "jwt-old", deviceCodeFile := some "CODE-7", pendingFile := none }).ret
    = some ("Device claim failed", "Server returned 500")
    ∧ (GuardianClaim.run
      { rootMountPoint := none, offline_mode := false,
        gs_parent_token := some "tok7", tmp_parent_token := none,
        gs_parent_email := some "dad@example.com", env_test_email := none,
        gs_pending_email := none,
        signals := ⟨none, [], some "mid7"⟩, rand_id := "r7",
        http := .response 500 none none "internal error", timestamp := "t7" }
      { supabaseEnvJwt := some "jwt-old", deviceCodeFile := some "CODE-7", pendingFile := none }).fs
    = { supabaseEnvJwt := some "jwt-old", deviceCodeFile := some "CODE-7", pendingFile := none } :=
  ⟨(c7_non200_hard_failure _ _ 500 none none "internal error" rfl (by decide) rfl (by decide)).1,
   (c7_non200_hard_failure _ _ 500 none none "internal error" rfl (by decide) rfl (by decide)).2.1⟩

/-- Claim C8 is false as stated: a concrete successful claim run truncates the
destination `supabase.env` in place (`open(env_file, "w")`) and performs no
rename anywhere in its operation trace — no write-to-temporary-then-rename
step exists. -/
theorem c8_counterexample :
    ((GuardianClaim.run
      { rootMountPoint := some "/mnt", offline_mode := false,
        gs_parent_token := some "tok8", tmp_parent_token := none,
        gs_parent_email := some "p8@example.com", env_test_email := none,
        gs_pending_email := none,
        signals := ⟨none, [], some "mid8"⟩, rand_id := "r8",
        http := .response 200 (some "jwt-8") (some "CODE-8") "", timestamp := "t8" }
      { supabaseEnvJwt := none, deviceCodeFile := none, pendingFile := none }).trace.any
        (fun op => op = .openTrunc "/mnt/etc/guardian/supabase.env") = true)
    ∧ ((GuardianClaim.run
      { rootMountPoint := some "/mnt", offline_mode := false,
        gs_parent_token := some "tok8", tmp_parent_token := none,
        gs_parent_email := some "p8@example.com", env_test_email := none,
        gs_pending_email := none,
        signals := ⟨none, [], some "mid8"⟩, rand_id := "r8",
        http := .response 200 (some "jwt-8") (some "CODE-8") "", timestamp := "t8" }
      { supabaseEnvJwt := none, deviceCodeFile := none, pendingFile := none }).trace.any
        isRenameOp = false) := by
  constructor <;> decide

/-- Claim C8 (amended): every artifact write of the claim flow opens its
destination file directly and truncates it in place; no invocation of the flow
ever performs a rename, so no write uses the temporary-file-plus-atomic-rename
discipline. -/
theorem c8_in_place_writes (inp : GuardianClaim.ClaimInputs) (fs : FS) :
    ((GuardianClaim.run inp fs).trace.all (fun op => !(isRenameOp op))) = true := by
  by_cases hoff : inp.offline_mode = true
  · simp [GuardianClaim.run, hoff, GuardianClaim.write_supabase_env, isRenameOp]
  · by_cases htok : GuardianClaim.effectiveToken inp = ""
    · simp [GuardianClaim.run, hoff, htok]
    · cases hh : inp.http with
      | response st jf cf txt =>
          by_cases hst : st = 200
          · subst hst
            simp [GuardianClaim.run, hoff, htok, hh, GuardianClaim.write_supabase_env, isRenameOp]
          · simp [GuardianClaim.run, hoff, htok, hh, hst, isRenameOp]
      | netError m =>
          simp [GuardianClaim.run, hoff, htok, hh, GuardianClaim.write_supabase_env, isRenameOp]

/-- Shared helper: when the effective (post-fallback) email or password is
empty, `guardian_auth.run` short-circuits before any network request, records
offline mode, and succeeds. -/
theorem auth_short_circuit (inp : GuardianAuth.AuthInputs)
    (hcred : GuardianAuth.effectiveEmail inp = "" ∨ GuardianAuth.effectivePassword inp = "") :
    GuardianAuth.run inp =
      { offline_mode := true, pending_email := none, pending_auth := false,
        parent_token := none, parent_email := none, ret := none, trace := [] } := by
  rcases hcred with h | h <;> simp [GuardianAuth.run, h]

/-- Shared helper: when the effective email and password are both nonempty,
`guardian_auth.run` performs a network request (an `httpPost` appears in its
trace) whatever the outcome of that request is. -/
theorem auth_network_attempted (inp : GuardianAuth.AuthInputs)
    (hcred : ¬(GuardianAuth.effectiveEmail inp = "" ∨ GuardianAuth.effectivePassword inp = "")) :
    (GuardianAuth.run inp).trace.any isHttpPost = true := by
  simp only [GuardianAuth.run]
  rw [if_neg hcred]
  cases hh : inp.http with
  | response st tokenField txt =>
      by_cases hst : st = 200
      · subst hst
        by_cases htok : truthyOpt tokenField = true
        · simp [htok, isHttpPost]
        · simp [htok, isHttpPost]
      · simp [hst, isHttpPost]
  | netError m => simp [isHttpPost]

/-- Claim C5 is false as stated: with empty UI-supplied email and password
but the `GUARDIAN_TEST_EMAIL` / `GUARDIAN_TEST_PASSWORD` environment variables
set, `authenticate` performs a network request and does not take the
offline/Unavailable path. -/
theorem c5_counterexample :
    ((GuardianAuth.run
      { gs_auth_mode := none, gs_auth_email := none, gs_auth_password := none,
        env_test_email := some "test@example.com", env_test_password := some "secret",
        http := .response 200 (some "tok5") "" }).trace.any isHttpPost = true)
    ∧ ((GuardianAuth.run
      { gs_auth_mode := none, gs_auth_email := none, gs_auth_password := none,
        env_test_email := some "test@example.com", env_test_password := some "secret",
        http := .response 200 (some "tok5") "" }).offline_mode = false) := by
  constructor <;> decide

/-- Claim C5 (amended): when the effective email or password — the UI value,
or its environment-variable fallback when the UI value is empty — is empty,
`authenticate` performs no network I/O, records offline mode for deferred
activation, succeeds rather than erroring, and never reaches the claimed
(token-inserting) path.  With empty UI credentials this holds exactly when the
`GUARDIAN_TEST_*` fallbacks are also unset or empty. -/
theorem c5_offline_short_circuit (inp : GuardianAuth.AuthInputs)
    (hcred : GuardianAuth.effectiveEmail inp = "" ∨ GuardianAuth.effectivePassword inp = "") :
    (GuardianAuth.run inp).trace.any isHttpPost = false
    ∧ (GuardianAuth.run inp).offline_mode = true
    ∧ (GuardianAuth.run inp).ret = none
    ∧ (GuardianAuth.run inp).parent_token = none := by
  rw [auth_short_circuit inp hcred]
  exact ⟨rfl, rfl, rfl, rfl⟩

/-- Witness for `c5_offline_short_circuit` with every credential source empty. -/
theorem c5_witness :
    (GuardianAuth.run
      { gs_auth_mode := none, gs_auth_email := none, gs_auth_password := none,
        env_test_email := none, env_test_password := none,
        http := .response 200 (some "tok") "" }).offline_mode = true :=
  (c5_offline_short_circuit
    { gs_auth_mode := none, gs_auth_email := none, gs_auth_password := none,
      env_test_email := none, env_test_password := none,
      http := .response 200 (some "tok") "" } (Or.inl rfl)).2.1

/-- With an empty (absent or `""`) UI email, the effective email is the
`GUARDIAN_TEST_EMAIL` environment fallback. -/
theorem effectiveEmail_of_empty (inp : GuardianAuth.AuthInputs)
    (he : inp.gs_auth_email.getD "" = "") :
    GuardianAuth.effectiveEmail inp = inp.env_test_email.getD "" := by
  unfold GuardianAuth.effectiveEmail
  cases h : inp.gs_auth_email with
  | none => simp [truthyOpt]
  | some s =>
      rw [h] at he
      simp only [Option.getD] at he
      subst he
      simp [truthyOpt]

/-- With an empty (absent or `""`) UI password, the effective password is the
`GUARDIAN_TEST_PASSWORD` environment fallback. -/
theorem effectivePassword_of_empty (inp : GuardianAuth.AuthInputs)
    (hp : inp.gs_auth_password.getD "" = "") :
    GuardianAuth.effectivePassword inp = inp.env_test_password.getD "" := by
  unfold GuardianAuth.effectivePassword
  cases h : inp.gs_auth_password with
  | none => simp [truthyOpt]
  | some s =>
      rw [h] at hp
      simp only [Option.getD] at hp
      subst hp
      simp [truthyOpt]

/-- Claim C10: with empty UI credentials, `authenticate` falls back to the
`GUARDIAN_TEST_EMAIL` / `GUARDIAN_TEST_PASSWORD` environment variables before
deciding the offline path: no network I/O happens exactly when at least one of
the two environment fallbacks is also unset or empty, and in that case the
outcome is the offline/Unavailable path (offline mode recorded, success
returned). -/
theorem c10_env_fallback (inp : GuardianAuth.AuthInputs)
    (he : inp.gs_auth_email.getD "" = "")
    (hp : inp.gs_auth_password.getD "" = "") :
    (((GuardianAuth.run inp).trace.any isHttpPost = false) ↔
      (inp.env_test_email.getD "" = "" ∨ inp.env_test_password.getD "" = ""))
    ∧ ((inp.env_test_email.getD "" = "" ∨ inp.env_test_password.getD "" = "") →
        (GuardianAuth.run inp).offline_mode = true ∧ (GuardianAuth.run inp).ret = none) := by
  have hee := effectiveEmail_of_empty inp he
  have hpp := effectivePassword_of_empty inp hp
  by_cases henv : inp.env_test_email.getD "" = "" ∨ inp.env_test_password.getD "" = ""
  · have hcred : GuardianAuth.effectiveEmail inp = "" ∨ GuardianAuth.effectivePassword inp = "" := by
      rcases henv with h | h
      · exact Or.inl (hee.trans h)
      · exact Or.inr (hpp.trans h)
    have hrun := auth_short_circuit inp hcred
    refine ⟨⟨fun _ => henv, fun _ => ?_⟩, fun _ => ?_⟩
    · rw [hrun]
      rfl
    · rw [hrun]
      exact ⟨rfl, rfl⟩
  · have hcred : ¬(GuardianAuth.effectiveEmail inp = "" ∨ GuardianAuth.effectivePassword inp = "") := by
      rw [hee, hpp]
      exact henv
    have hnet := auth_network_attempted inp hcred
    refine ⟨⟨fun hno => ?_, fun h => absurd h henv⟩, fun h => absurd h henv⟩
    rw [hnet] at hno
    cases hno

/-- Witness for `c10_env_fallback`: empty UI credentials with a nonempty
environment fallback pair — the iff then states that network I/O happens. -/
theorem c10_witness :
    ¬((GuardianAuth.run
      { gs_auth_mode := some "register", gs_auth_email := some "", gs_auth_password := none,
        env_test_email := some "fall@example.com", env_test_password := some "fallpw",
        http := .netError "refused" }).trace.any isHttpPost = false) :=
  fun hno =>
    have h := (c10_env_fallback
      { gs_auth_mode := some "register", gs_auth_email := some "", gs_auth_password := none,
        env_test_email := some "fall@example.com", env_test_password := some "fallpw",
        http := .netError "refused" } rfl rfl).1.mp hno
    by exact absurd h (by decide)
